import Mathlib

/-!
# GoFish scoring and fusion engine: verification

Shallow embedding of the GoFish fishing assistant's decision logic and of the
frontend display fallbacks, together with theorems settling the specification
claims about them.

The repository ships the frontend components (`frontend/src/components`,
`fish-scan/src/FishScanner.jsx`) and documentation, but the unified backend
`app.py` — which contains the identification-fusion engine and the
spot-recommendation engine — is not part of the source tree here (only its
callers, docs and response examples are). Definitions for those two engines
are therefore modelled from the specification, as marked in their doc
comments. Frontend display logic (status colour thresholds, JavaScript `||`
fallbacks on station bite scores) is embedded from the shipped sources.

Numeric model: confidences and scores are rationals (`ℚ`); the spec's
floating-point arithmetic on small decimal constants is exact here, matching
its "within floating epsilon" reading. Bite scores are integers (`ℤ`).
-/

namespace GoFish

/-! ## Identification fusion engine (spec §4.1) -/

/-- Modelled from the spec: one classifier output (`label`,
`confidence ∈ [0,1]`); the backend `app.py` that constructs these is missing
from the source tree. -/
structure ClassifierResult where
  label : String
  confidence : ℚ
deriving Repr, DecidableEq

/-- Modelled from the spec: the disclosed fusion method tag. -/
inductive FuseMethod where
  | PRIMARY_ONLY
  | SECONDARY_ONLY
  | HYBRID_AGREE
  | HYBRID_DISAGREE
deriving Repr, DecidableEq

/-- Modelled from the spec: the fused identification record returned to the
caller, retaining both raw confidences for transparency. -/
structure FusedIdentification where
  species : String
  confidence : ℚ
  primary_confidence : Option ℚ
  secondary_confidence : Option ℚ
  method : FuseMethod
deriving Repr, DecidableEq

/-- Modelled from the spec: the fusion error taxonomy (spec §7). -/
inductive FuseError where
  | NoClassifierResult
  | InvalidConfidence
deriving Repr, DecidableEq

/-- A confidence value is well-formed when it lies in the unit interval. -/
def validC (c : ℚ) : Prop := 0 ≤ c ∧ c ≤ 1

instance (c : ℚ) : Decidable (validC c) :=
  inferInstanceAs (Decidable (0 ≤ c ∧ c ≤ 1))

/-- Splits a character list into maximal whitespace-free words; `acc` holds
the current word reversed. -/
def splitWordsAux : List Char → List Char → List (List Char)
  | [], acc => if acc.isEmpty then [] else [acc.reverse]
  | c :: cs, acc =>
    if c.isWhitespace then
      if acc.isEmpty then splitWordsAux cs []
      else acc.reverse :: splitWordsAux cs []
    else splitWordsAux cs (c :: acc)

/-- Joins words with single spaces. -/
def joinWords : List (List Char) → List Char
  | [] => []
  | [w] => w
  | w :: ws => w ++ (' ' :: joinWords ws)

/-- Label comparison key: case-insensitive and whitespace-normalized
(lower-cased, runs of whitespace collapsed, ends trimmed). -/
def normalizeLabel (s : String) : String :=
  String.mk (joinWords (splitWordsAux (s.data.map Char.toLower) []))

/-- Modelled from the spec: the hybrid fusion contract `fuse` of the missing
backend `app.py` (spec §4.1).  A pure function of its two inputs: one present
result is returned verbatim with the matching method tag; two present results
blend confidences as `0.7·primary + 0.3·secondary`, agreeing labels give
`HYBRID_AGREE`, disagreeing labels keep the primary label with
`HYBRID_DISAGREE`; no input fails with `NoClassifierResult`, and a confidence
outside `[0,1]` fails with `InvalidConfidence`. -/
def fuse (primary secondary : Option ClassifierResult) :
    Except FuseError FusedIdentification :=
  match primary, secondary with
  | none, none => .error .NoClassifierResult
  | some p, none =>
    if validC p.confidence then
      .ok { species := p.label, confidence := p.confidence,
            primary_confidence := some p.confidence,
            secondary_confidence := none,
            method := .PRIMARY_ONLY }
    else .error .InvalidConfidence
  | none, some s =>
    if validC s.confidence then
      .ok { species := s.label, confidence := s.confidence,
            primary_confidence := none,
            secondary_confidence := some s.confidence,
            method := .SECONDARY_ONLY }
    else .error .InvalidConfidence
  | some p, some s =>
    if validC p.confidence ∧ validC s.confidence then
      if normalizeLabel p.label = normalizeLabel s.label then
        .ok { species := p.label,
              confidence := 7/10 * p.confidence + 3/10 * s.confidence,
              primary_confidence := some p.confidence,
              secondary_confidence := some s.confidence,
              method := .HYBRID_AGREE }
      else
        .ok { species := p.label,
              confidence := 7/10 * p.confidence + 3/10 * s.confidence,
              primary_confidence := some p.confidence,
              secondary_confidence := some s.confidence,
              method := .HYBRID_DISAGREE }
    else .error .InvalidConfidence

/-- C1: when both classifier results are present and their labels agree after
case-insensitive whitespace-normalized comparison, `fuse` returns the shared
label (the primary's spelling of it) with confidence exactly
`0.7·primary + 0.3·secondary` and method `HYBRID_AGREE`. -/
theorem fuse_hybrid_agree (p s : ClassifierResult)
    (hl : normalizeLabel p.label = normalizeLabel s.label)
    (hp : validC p.confidence) (hs : validC s.confidence) :
    fuse (some p) (some s) =
      .ok { species := p.label,
            confidence := 7/10 * p.confidence + 3/10 * s.confidence,
            primary_confidence := some p.confidence,
            secondary_confidence := some s.confidence,
            method := .HYBRID_AGREE } := by
  simp [fuse, hl, hp, hs]

/-- C1 witness: the spec scenario primary=("walleye", 0.94),
secondary=("walleye", 0.91) fuses to confidence 0.931 with `HYBRID_AGREE`. -/
theorem fuse_hybrid_agree_witness :
    validC (94/100 : ℚ) ∧ validC (91/100 : ℚ) ∧
    fuse (some { label := "walleye", confidence := 94/100 })
         (some { label := "walleye", confidence := 91/100 }) =
      .ok { species := "walleye", confidence := 931/1000,
            primary_confidence := some (94/100),
            secondary_confidence := some (91/100),
            method := .HYBRID_AGREE } := by
  refine ⟨by constructor <;> norm_num, by constructor <;> norm_num, ?_⟩
  rw [fuse_hybrid_agree { label := "walleye", confidence := 94/100 }
        { label := "walleye", confidence := 91/100 } rfl
        (by constructor <;> norm_num) (by constructor <;> norm_num)]
  norm_num

/-- C4: when both classifier results are present and their labels differ, the
primary classifier's label wins, the confidence is still the
`0.7/0.3` blend, the method is `HYBRID_DISAGREE`, and both raw confidences
are retained in the output. -/
theorem fuse_hybrid_disagree (p s : ClassifierResult)
    (hl : normalizeLabel p.label ≠ normalizeLabel s.label)
    (hp : validC p.confidence) (hs : validC s.confidence) :
    fuse (some p) (some s) =
      .ok { species := p.label,
            confidence := 7/10 * p.confidence + 3/10 * s.confidence,
            primary_confidence := some p.confidence,
            secondary_confidence := some s.confidence,
            method := .HYBRID_DISAGREE } := by
  simp [fuse, hl, hp, hs]

/-- C4 witness: the spec scenario primary=("pike", 0.60),
secondary=("bass", 0.90) keeps label "pike" with confidence 0.69 and method
`HYBRID_DISAGREE`, retaining both raw confidences. -/
theorem fuse_hybrid_disagree_witness :
    validC (60/100 : ℚ) ∧ validC (90/100 : ℚ) ∧
    fuse (some { label := "pike", confidence := 60/100 })
         (some { label := "bass", confidence := 90/100 }) =
      .ok { species := "pike", confidence := 69/100,
            primary_confidence := some (60/100),
            secondary_confidence := some (90/100),
            method := .HYBRID_DISAGREE } := by
  refine ⟨by constructor <;> norm_num, by constructor <;> norm_num, ?_⟩
  rw [fuse_hybrid_disagree { label := "pike", confidence := 60/100 }
        { label := "bass", confidence := 90/100 } (by decide)
        (by constructor <;> norm_num) (by constructor <;> norm_num)]
  norm_num

/-- C7: when exactly one classifier result is present, `fuse` returns it
verbatim — label and confidence unchanged — with method `PRIMARY_ONLY` when
the primary is present and `SECONDARY_ONLY` when the secondary is. -/
theorem fuse_single_present :
    (∀ p : ClassifierResult, validC p.confidence →
      fuse (some p) none =
        .ok { species := p.label, confidence := p.confidence,
              primary_confidence := some p.confidence,
              secondary_confidence := none, method := .PRIMARY_ONLY }) ∧
    (∀ s : ClassifierResult, validC s.confidence →
      fuse none (some s) =
        .ok { species := s.label, confidence := s.confidence,
              primary_confidence := none,
              secondary_confidence := some s.confidence,
              method := .SECONDARY_ONLY }) := by
  constructor <;> intro r h <;> simp [fuse, h]

/-- C7 witness: a lone primary ("walleye", 0.9) and a lone secondary
("bass", 0.8) are each returned unchanged with the matching method tag. -/
theorem fuse_single_present_witness :
    validC (9/10 : ℚ) ∧ validC (8/10 : ℚ) ∧
    fuse (some { label := "walleye", confidence := 9/10 }) none =
      .ok { species := "walleye", confidence := 9/10,
            primary_confidence := some (9/10),
            secondary_confidence := none, method := .PRIMARY_ONLY } ∧
    fuse none (some { label := "bass", confidence := 8/10 }) =
      .ok { species := "bass", confidence := 8/10,
            primary_confidence := none,
            secondary_confidence := some (8/10),
            method := .SECONDARY_ONLY } := by
  refine ⟨by constructor <;> norm_num, by constructor <;> norm_num, ?_, ?_⟩
  · exact fuse_single_present.1 { label := "walleye", confidence := 9/10 }
      (by constructor <;> norm_num)
  · exact fuse_single_present.2 { label := "bass", confidence := 8/10 }
      (by constructor <;> norm_num)

/-- C8: `fuse` fails with `NoClassifierResult` exactly when both inputs are
absent, and with `InvalidConfidence` exactly when some present input has a
confidence outside `[0,1]`; being a total Lean function of its two arguments,
it is pure, and all failures are explicit typed errors. -/
theorem fuse_error_taxonomy (p s : Option ClassifierResult) :
    (fuse p s = .error .NoClassifierResult ↔ p = none ∧ s = none) ∧
    (fuse p s = .error .InvalidConfidence ↔
      ∃ r : ClassifierResult, (p = some r ∨ s = some r) ∧ ¬ validC r.confidence) := by
  cases p with
  | none =>
    cases s with
    | none => simp [fuse]
    | some b =>
      by_cases hb : validC b.confidence <;> simp [fuse, hb]
  | some a =>
    cases s with
    | none =>
      by_cases ha : validC a.confidence <;> simp [fuse, ha]
    | some b =>
      by_cases ha : validC a.confidence <;> by_cases hb : validC b.confidence
      · have h1 : ∃ v, fuse (some a) (some b) = .ok v := by
          simp only [fuse, ha, hb, and_self, if_true]
          split <;> exact ⟨_, rfl⟩
        obtain ⟨v, hv⟩ := h1
        refine ⟨?_, ?_⟩ <;> rw [hv] <;> simp
        rintro x (rfl | rfl)
        · exact ha
        · exact hb
      · have he : fuse (some a) (some b) = .error .InvalidConfidence := by
          simp [fuse, hb]
        refine ⟨?_, ?_⟩ <;> rw [he] <;> simp
        exact ⟨b, Or.inr rfl, hb⟩
      · have he : fuse (some a) (some b) = .error .InvalidConfidence := by
          simp [fuse, ha]
        refine ⟨?_, ?_⟩ <;> rw [he] <;> simp
        exact ⟨a, Or.inl rfl, ha⟩
      · have he : fuse (some a) (some b) = .error .InvalidConfidence := by
          simp [fuse, ha]
        refine ⟨?_, ?_⟩ <;> rw [he] <;> simp
        exact ⟨a, Or.inl rfl, ha⟩

/-! ## Spot recommendation engine (spec §4.2) -/

/-- Modelled from the spec: a candidate fishing location from the static
catalog; the backend `app.py` that loads these from GeoJSON is missing from
the source tree. -/
structure HabitatLocation where
  id : String
  name : String
  latitude : ℚ
  longitude : ℚ
  habitat_type : String
  habitat_description : String
  area : ℚ
  base_habitat_score : ℚ
deriving Repr, DecidableEq

/-- Modelled from the spec: a per-location weather value object, injected by
the caller; `pressure_falling` is the pressure trend attached to the
snapshot, not recomputed by the engine. -/
structure WeatherSnapshot where
  temperature_c : ℚ
  pressure_hpa : ℚ
  wind_speed_kmh : ℚ
  pressure_falling : Bool
deriving Repr, DecidableEq

/-- Modelled from the spec: static per-species configuration — habitat
keywords, preferred temperature range, pressure sensitivity, diurnal
activity window (start/end hour). -/
structure SpeciesProfile where
  habitatKeywords : List String
  tempLow : ℚ
  tempHigh : ℚ
  pressureSensitive : Bool
  windowStart : Nat
  windowEnd : Nat
deriving Repr, DecidableEq

/-- Modelled from the spec: the four-tier qualitative status band. -/
inductive Status where
  | GREAT
  | GOOD
  | FAIR
  | POOR
deriving Repr, DecidableEq

/-- Modelled from the spec: one scored output record of `rank`. -/
structure ScoredSpot where
  location : HabitatLocation
  weather : WeatherSnapshot
  bite_score : ℤ
  status : Status
  reasoning : String
deriving Repr, DecidableEq

/-- Modelled from the spec: an optional geographic bounding box filter. -/
structure GeoBounds where
  minLat : ℚ
  maxLat : ℚ
  minLon : ℚ
  maxLon : ℚ
deriving Repr, DecidableEq

/-- Modelled from the spec: the ranking error taxonomy (spec §7). -/
inductive RankError where
  | UnknownSpecies
deriving Repr, DecidableEq

/-- Modelled from the spec: the species-profile configuration for the five
supported species (walleye, bass, trout, pike, perch); keyword lists, ranges
and windows are representative configuration values. -/
def speciesProfiles : List (String × SpeciesProfile) :=
  [("walleye", { habitatKeywords := ["weed", "drop-off", "rocky", "shoal"],
                 tempLow := 13, tempHigh := 21, pressureSensitive := true,
                 windowStart := 17, windowEnd := 23 }),
   ("bass", { habitatKeywords := ["weed", "dock", "lily", "warm"],
              tempLow := 18, tempHigh := 26, pressureSensitive := false,
              windowStart := 6, windowEnd := 10 }),
   ("trout", { habitatKeywords := ["cold", "spring", "stream", "deep"],
               tempLow := 8, tempHigh := 16, pressureSensitive := false,
               windowStart := 5, windowEnd := 9 }),
   ("pike", { habitatKeywords := ["weed", "bay", "shallow", "marsh"],
              tempLow := 10, tempHigh := 18, pressureSensitive := true,
              windowStart := 8, windowEnd := 18 }),
   ("perch", { habitatKeywords := ["weed", "sand", "school", "shallow"],
               tempLow := 12, tempHigh := 22, pressureSensitive := false,
               windowStart := 9, windowEnd := 17 })]

/-- Looks up the profile of a species name; `none` means the species is
unsupported. -/
def lookupProfile (species : String) : Option SpeciesProfile :=
  speciesProfiles.lookup species

/-- Case-insensitive substring test used by the habitat keyword matcher. -/
def containsSub (hay needle : String) : Bool :=
  needle.isEmpty || decide (2 ≤ ((hay.toLower).splitOn (needle.toLower)).length)

/-- Configured cap on counted keyword hits for the habitat multiplier. -/
def maxKeywordHits : Nat := 3

/-- Modelled from the spec: the habitat multiplier in `[0.5, 1.5]` — no
keyword hit gives the lower end, hits interpolate linearly up to the cap. -/
def habitatMultiplier (profile : SpeciesProfile) (loc : HabitatLocation) : ℚ :=
  let text := loc.habitat_type ++ " " ++ loc.habitat_description
  let hits := min ((profile.habitatKeywords.filter (fun k => containsSub text k)).length)
    maxKeywordHits
  1/2 + (hits : ℚ) / (maxKeywordHits : ℚ)

/-- Clamps a rational into `[0,1]`. -/
def clamp01 (x : ℚ) : ℚ := max 0 (min 1 x)

/-- Species-agnostic wind-speed threshold above which a flat penalty
applies. -/
def windPenaltyThreshold : ℚ := 20

/-- Width of the capped linear falloff outside the preferred temperature
range. -/
def tempFalloff : ℚ := 10

/-- Modelled from the spec: the weather score in `[0,1]` — capped linear
temperature falloff outside the preferred range, pressure-trend alignment for
pressure-sensitive species, and a flat penalty for wind above the
threshold. -/
def weatherScore (profile : SpeciesProfile) (w : WeatherSnapshot) : ℚ :=
  let tempComp : ℚ :=
    if w.temperature_c < profile.tempLow then
      max 0 (1 - (profile.tempLow - w.temperature_c) / tempFalloff)
    else if profile.tempHigh < w.temperature_c then
      max 0 (1 - (w.temperature_c - profile.tempHigh) / tempFalloff)
    else 1
  let pressComp : ℚ :=
    if profile.pressureSensitive then (if w.pressure_falling then 1 else 1/2) else 1
  let penalty : ℚ := if windPenaltyThreshold < w.wind_speed_kmh then 1/5 else 0
  clamp01 ((tempComp + pressComp) / 2 - penalty)

/-- Fixed lower constant awarded outside the diurnal activity window. -/
def offWindowScore : ℚ := 3/10

/-- Modelled from the spec: the time-of-day score — 1 inside the species'
diurnal window (which may wrap midnight), the fixed lower constant outside,
with no partial credit for adjacency. -/
def timeScore (profile : SpeciesProfile) (hour : Nat) : ℚ :=
  let inWindow :=
    if profile.windowStart ≤ profile.windowEnd then
      profile.windowStart ≤ hour ∧ hour < profile.windowEnd
    else
      profile.windowStart ≤ hour ∨ hour < profile.windowEnd
  if inWindow then 1 else offWindowScore

/-- Maps the habitat multiplier's range `[0.5, 1.5]` onto `[0,1]` before the
weighted sum, preserving the documented 50/30/20 weighting. -/
def normalizeMultiplier (m : ℚ) : ℚ := m - 1/2

/-- Modelled from the spec: the composite bite score
`round (100 * clamp01 (0.5*base*multNorm + 0.3*weather + 0.2*time))`. -/
def biteScore (base mult weather time : ℚ) : ℤ :=
  round (100 * clamp01 (1/2 * base * normalizeMultiplier mult
    + 3/10 * weather + 1/5 * time))

/-- Modelled from the spec: the fixed-threshold status band of a bite
score. -/
def statusOfScore (score : ℤ) : Status :=
  if 75 ≤ score then .GREAT
  else if 55 ≤ score then .GOOD
  else if 35 ≤ score then .FAIR
  else .POOR

/-- Modelled from the spec: the deterministic reasoning string — habitat
phrase, then weather phrase naming the dominant factor, then time-of-day
phrase, joined by a fixed separator. -/
def reasoningString (profile : SpeciesProfile) (loc : HabitatLocation)
    (w : WeatherSnapshot) (hour : Nat) : String :=
  let habitatPhrase :=
    if 1 ≤ habitatMultiplier profile loc then "Strong habitat match"
    else "Marginal habitat"
  let weatherPhrase :=
    if windPenaltyThreshold < w.wind_speed_kmh then "High wind"
    else if w.pressure_falling then "Falling pressure"
    else "Stable weather"
  let timePhrase :=
    if timeScore profile hour = 1 then "Active feeding window" else "Off-peak hours"
  habitatPhrase ++ "; " ++ weatherPhrase ++ "; " ++ timePhrase

/-- Scores a single location against a species profile, its weather snapshot
and the local hour. -/
def scoreLocation (profile : SpeciesProfile) (loc : HabitatLocation)
    (w : WeatherSnapshot) (hour : Nat) : ScoredSpot :=
  let score := biteScore loc.base_habitat_score (habitatMultiplier profile loc)
    (weatherScore profile w) (timeScore profile hour)
  { location := loc, weather := w, bite_score := score,
    status := statusOfScore score,
    reasoning := reasoningString profile loc w hour }

/-- Tests whether a location falls inside the optional bounding box. -/
def inBounds (b : Option GeoBounds) (loc : HabitatLocation) : Bool :=
  match b with
  | none => true
  | some bb => decide (bb.minLat ≤ loc.latitude ∧ loc.latitude ≤ bb.maxLat ∧
      bb.minLon ≤ loc.longitude ∧ loc.longitude ≤ bb.maxLon)

/-- The catalog-ordered list of scored candidates: locations inside the
bounds whose id has a weather snapshot; a location with no snapshot is
excluded here, never scored with defaults. -/
def scoredSpots (profile : SpeciesProfile) (locations : List HabitatLocation)
    (weather : String → Option WeatherSnapshot) (hour : Nat)
    (bounds : Option GeoBounds) : List ScoredSpot :=
  (locations.filter (inBounds bounds)).filterMap
    (fun loc => (weather loc.id).map (fun w => scoreLocation profile loc w hour))

/-- Ranking comparison on index-decorated spots: higher bite score first,
ties broken by the original catalog index. -/
def spotLE (x y : Nat × ScoredSpot) : Bool :=
  decide (y.2.bite_score < x.2.bite_score ∨
    (x.2.bite_score = y.2.bite_score ∧ x.1 ≤ y.1))

/-- Modelled from the spec: `rank` with the tie-break made explicit — each
scored candidate is decorated with its catalog position, sorted descending by
bite score with ties in catalog order, and truncated to the caller's
limit. -/
def rankDecorated (species : String) (locations : List HabitatLocation)
    (weather : String → Option WeatherSnapshot) (hour : Nat)
    (bounds : Option GeoBounds) (limit : Nat) :
    Except RankError (List (Nat × ScoredSpot)) :=
  match lookupProfile species with
  | none => .error .UnknownSpecies
  | some profile =>
    .ok ((((scoredSpots profile locations weather hour bounds).enum).mergeSort
      spotLE).take limit)

/-- Modelled from the spec: the ranking contract `rank` of the missing
backend `app.py` (spec §4.2) — unsupported species fail with
`UnknownSpecies`; otherwise the sorted, truncated list of scored spots is
returned (an empty result is not an error). -/
def rank (species : String) (locations : List HabitatLocation)
    (weather : String → Option WeatherSnapshot) (hour : Nat)
    (bounds : Option GeoBounds) (limit : Nat) :
    Except RankError (List ScoredSpot) :=
  (rankDecorated species locations weather hour bounds limit).map
    (fun l => l.map Prod.snd)

/-! ## Frontend display logic (embedded from the shipped sources) -/

/-- Marker colour thresholds of `updateMapMarkers` in the BestSpotsPost
component: `score >= 75` green, `>= 55` yellow, `>= 35` orange, else red. -/
def markerColor (score : ℤ) : String :=
  if 75 ≤ score then "#22c55e"
  else if 55 ≤ score then "#eab308"
  else if 35 ≤ score then "#f97316"
  else "#ef4444"

/-- The hex colour the frontend associates with each status band. -/
def statusHexColor : Status → String
  | .GREAT => "#22c55e"
  | .GOOD => "#eab308"
  | .FAIR => "#f97316"
  | .POOR => "#ef4444"

/-- One entry of a station's `bite_scores` array as the frontend receives
it. -/
structure BiteScoreEntry where
  species : String
  score : ℤ
  status : String
  reasoning : String
deriving Repr, DecidableEq

/-- A station object as consumed by the map and advice components (fields
not used by the embedded logic are omitted). -/
structure StationData where
  station_id : String
  station_name : String
  latitude : ℚ
  longitude : ℚ
  bite_scores : List BiteScoreEntry
deriving Repr, DecidableEq

/-- JavaScript `x || d` on an optional number: `undefined` and the falsy
value `0` both yield the default. -/
def jsNumOr (v : Option ℤ) (d : ℤ) : ℤ :=
  match v with
  | none => d
  | some x => if x = 0 then d else x

/-- JavaScript `x || d` on an optional string: `undefined` and the falsy
empty string both yield the default. -/
def jsStrOr (v : Option String) (d : String) : String :=
  match v with
  | none => d
  | some s => if s = "" then d else s

/-- The score the components display: `station.bite_scores[0]?.score || 50`
(StrategicAdvice, the marker effect of the Map component, and ResultMap). -/
def displayedScore (st : StationData) : ℤ :=
  jsNumOr ((st.bite_scores.head?).map (fun e => e.score)) 50

/-- The status the components display:
`station.bite_scores[0]?.status || "Fair"`. -/
def displayedStatus (st : StationData) : String :=
  jsStrOr ((st.bite_scores.head?).map (fun e => e.status)) "Fair"

/-- The reasoning StrategicAdvice displays:
`station.bite_scores[0]?.reasoning || "Average conditions"`. -/
def displayedReasoning (st : StationData) : String :=
  jsStrOr ((st.bite_scores.head?).map (fun e => e.reasoning)) "Average conditions"

/-! ## Helper lemmas -/

theorem clamp01_nonneg (x : ℚ) : 0 ≤ clamp01 x := le_max_left 0 _

theorem clamp01_le_one (x : ℚ) : clamp01 x ≤ 1 := max_le (by norm_num) (min_le_left 1 x)

theorem clamp01_mono {x y : ℚ} (h : x ≤ y) : clamp01 x ≤ clamp01 y :=
  max_le_max (le_refl 0) (min_le_min (le_refl 1) h)

theorem round_mono_rat {x y : ℚ} (h : x ≤ y) : round x ≤ round y := by
  rw [round_eq, round_eq]
  exact Int.floor_mono (by linarith)

theorem round_clamp_range (x : ℚ) :
    0 ≤ round (100 * clamp01 x) ∧ round (100 * clamp01 x) ≤ 100 := by
  constructor
  · have h : (0:ℚ) ≤ 100 * clamp01 x := by nlinarith [clamp01_nonneg x]
    calc (0:ℤ) = round (0:ℚ) := by rw [round_zero]
    _ ≤ round (100 * clamp01 x) := round_mono_rat h
  · have h : 100 * clamp01 x ≤ (100:ℚ) := by nlinarith [clamp01_le_one x]
    calc round (100 * clamp01 x) ≤ round ((100:ℚ)) := round_mono_rat h
    _ = 100 := by rw [show ((100:ℚ)) = ((100:ℤ):ℚ) by norm_num, round_intCast]

/-! ## Claim theorems: scoring -/

/-- C2: every bite score equals
`round (100 * clamp01 (0.5*base*multNorm + 0.3*weather + 0.2*time))`, where
the habitat multiplier is normalized from `[0.5,1.5]` onto `[0,1]`, the
result always lies in `[0,100]`, and the spec scenario (base 0.8, normalized
multiplier 1.0, weather 0.6, time 1.0) yields 78. -/
theorem biteScore_weighted_formula :
    (∀ b m w t : ℚ, biteScore b m w t =
      round (100 * clamp01 (1/2 * b * normalizeMultiplier m + 3/10 * w + 1/5 * t))) ∧
    (∀ b m w t : ℚ, 0 ≤ biteScore b m w t ∧ biteScore b m w t ≤ 100) ∧
    normalizeMultiplier (1/2) = 0 ∧ normalizeMultiplier (3/2) = 1 ∧
    biteScore (4/5) (3/2) (3/5) 1 = 78 := by
  refine ⟨fun b m w t => rfl, fun b m w t => round_clamp_range _,
    by norm_num [normalizeMultiplier], by norm_num [normalizeMultiplier], ?_⟩
  have h1 : (1:ℚ)/2 * (4/5) * normalizeMultiplier (3/2) + 3/10 * (3/5) + 1/5 * 1
      = 39/50 := by norm_num [normalizeMultiplier]
  unfold biteScore
  rw [h1, clamp01, min_eq_right (by norm_num), max_eq_right (by norm_num),
    show (100:ℚ) * (39/50) = ((78:ℤ):ℚ) by norm_num, round_intCast]

/-- C9: holding the other inputs fixed (with the habitat multiplier in its
documented domain, i.e. at least 0.5), the bite score is monotonically
non-decreasing in the base habitat score and in the weather score. -/
theorem biteScore_monotone (b b' m w w' t : ℚ) (hm : 1/2 ≤ m)
    (hb : b ≤ b') (hw : w ≤ w') :
    biteScore b m w t ≤ biteScore b' m w t ∧
    biteScore b m w t ≤ biteScore b m w' t := by
  constructor
  · unfold biteScore
    apply round_mono_rat
    have h : 1/2 * b * normalizeMultiplier m + 3/10 * w + 1/5 * t ≤
        1/2 * b' * normalizeMultiplier m + 3/10 * w + 1/5 * t := by
      unfold normalizeMultiplier
      nlinarith [mul_nonneg (sub_nonneg.mpr hb) (sub_nonneg.mpr hm)]
    have := clamp01_mono h
    linarith
  · unfold biteScore
    apply round_mono_rat
    have h : 1/2 * b * normalizeMultiplier m + 3/10 * w + 1/5 * t ≤
        1/2 * b * normalizeMultiplier m + 3/10 * w' + 1/5 * t := by linarith
    have := clamp01_mono h
    linarith

/-- C9 witness: concrete monotone instances — raising the base habitat score
from 0.1 to 0.9, or the weather score from 0.2 to 0.8, never lowers the bite
score. -/
theorem biteScore_monotone_witness :
    ((1:ℚ)/2 ≤ 1 ∧ (1:ℚ)/10 ≤ 9/10 ∧ (2:ℚ)/10 ≤ 8/10) ∧
    (biteScore (1/10) 1 (2/10) (1/2) ≤ biteScore (9/10) 1 (2/10) (1/2) ∧
     biteScore (1/10) 1 (2/10) (1/2) ≤ biteScore (1/10) 1 (8/10) (1/2)) :=
  ⟨⟨by norm_num, by norm_num, by norm_num⟩,
    biteScore_monotone (1/10) (9/10) 1 (2/10) (8/10) (1/2)
      (by norm_num) (by norm_num) (by norm_num)⟩

/-- C3: the status band is a fixed-threshold function of the bite score
alone — exact at the boundaries (75 GREAT, 74 GOOD, 55 GOOD, 54 FAIR, 35
FAIR, 34 POOR), every scored spot's status is that function of its own score
(so it cannot shift with the score distribution of other spots), and the
frontend marker colour thresholds realize the same bands. -/
theorem status_bands :
    (statusOfScore 75 = .GREAT ∧ statusOfScore 74 = .GOOD ∧
     statusOfScore 55 = .GOOD ∧ statusOfScore 54 = .FAIR ∧
     statusOfScore 35 = .FAIR ∧ statusOfScore 34 = .POOR) ∧
    (∀ n : ℤ, 75 ≤ n → statusOfScore n = .GREAT) ∧
    (∀ n : ℤ, 55 ≤ n → n ≤ 74 → statusOfScore n = .GOOD) ∧
    (∀ n : ℤ, 35 ≤ n → n ≤ 54 → statusOfScore n = .FAIR) ∧
    (∀ n : ℤ, n ≤ 34 → statusOfScore n = .POOR) ∧
    (∀ profile loc w hour, (scoreLocation profile loc w hour).status =
      statusOfScore (scoreLocation profile loc w hour).bite_score) ∧
    (∀ n : ℤ, markerColor n = statusHexColor (statusOfScore n)) := by
  refine ⟨by decide, ?_, ?_, ?_, ?_, fun _ _ _ _ => rfl, ?_⟩
  · intro n h
    unfold statusOfScore
    rw [if_pos h]
  · intro n h1 h2
    unfold statusOfScore
    rw [if_neg (by omega), if_pos h1]
  · intro n h1 h2
    unfold statusOfScore
    rw [if_neg (by omega), if_neg (by omega), if_pos h1]
  · intro n h
    unfold statusOfScore
    rw [if_neg (by omega), if_neg (by omega), if_neg (by omega)]
  · intro n
    by_cases h1 : 75 ≤ n <;> by_cases h2 : 55 ≤ n <;> by_cases h3 : 35 ≤ n <;>
      simp [markerColor, statusOfScore, statusHexColor, h1, h2, h3]

/-- C3 witness: concrete scores inside each band. -/
theorem status_bands_witness :
    ((75:ℤ) ≤ 80 ∧ statusOfScore 80 = .GREAT) ∧
    ((55:ℤ) ≤ 60 ∧ (60:ℤ) ≤ 74 ∧ statusOfScore 60 = .GOOD) ∧
    ((35:ℤ) ≤ 40 ∧ (40:ℤ) ≤ 54 ∧ statusOfScore 40 = .FAIR) ∧
    ((10:ℤ) ≤ 34 ∧ statusOfScore 10 = .POOR) :=
  ⟨⟨by decide, status_bands.2.1 80 (by decide)⟩,
   ⟨by decide, by decide, status_bands.2.2.1 60 (by decide) (by decide)⟩,
   ⟨by decide, by decide, status_bands.2.2.2.1 40 (by decide) (by decide)⟩,
   ⟨by decide, status_bands.2.2.2.2.1 10 (by decide)⟩⟩

/-- C10: a station whose `bite_scores` array is empty is rendered with the
substituted score 50, status "Fair" and reasoning "Average conditions"
rather than omitted, and — because the fallback uses JavaScript `||` — a
genuine bite score of 0 is also displayed as 50. -/
theorem station_fallback_rendering (st : StationData) :
    (st.bite_scores = [] →
      displayedScore st = 50 ∧ displayedStatus st = "Fair" ∧
      displayedReasoning st = "Average conditions") ∧
    (∀ e rest, st.bite_scores = e :: rest → e.score = 0 →
      displayedScore st = 50) := by
  constructor
  · intro h
    simp [displayedScore, displayedStatus, displayedReasoning, jsNumOr, jsStrOr, h]
  · intro e rest h h0
    simp [displayedScore, jsNumOr, h, h0]

/-- C10 witness: a concrete station with no bite scores falls back to
50/"Fair"/"Average conditions", and one with a genuine score of 0 also shows
50. -/
theorem station_fallback_rendering_witness :
    (displayedScore { station_id := "s1", station_name := "Empty Station", latitude := 44, longitude := -79, bite_scores := [] } = 50 ∧
     displayedStatus { station_id := "s1", station_name := "Empty Station", latitude := 44, longitude := -79, bite_scores := [] } = "Fair" ∧
     displayedReasoning { station_id := "s1", station_name := "Empty Station", latitude := 44, longitude := -79, bite_scores := [] } = "Average conditions") ∧
    displayedScore { station_id := "s2", station_name := "Zero Station", latitude := 44, longitude := -79, bite_scores := [{ species := "walleye", score := 0, status := "Poor", reasoning := "Tough bite" }] } = 50 :=
  ⟨(station_fallback_rendering _).1 rfl,
   (station_fallback_rendering _).2
     { species := "walleye", score := 0, status := "Poor", reasoning := "Tough bite" }
     [] rfl rfl⟩

/-! ## Ranking order lemmas -/

theorem spotLE_trans (a b c : Nat × ScoredSpot)
    (h1 : spotLE a b = true) (h2 : spotLE b c = true) : spotLE a c = true := by
  simp only [spotLE, decide_eq_true_eq] at *
  omega

theorem spotLE_total (a b : Nat × ScoredSpot) : (spotLE a b || spotLE b a) = true := by
  simp only [spotLE, Bool.or_eq_true, decide_eq_true_eq]
  omega

/-- The sorted decorated candidate list is pairwise ordered: scores descend,
and equal scores keep strictly increasing catalog indices. -/
theorem mergeSort_enum_pairwise (L : List ScoredSpot) :
    ((L.enum).mergeSort spotLE).Pairwise
      (fun x y => y.2.bite_score ≤ x.2.bite_score ∧
        (x.2.bite_score = y.2.bite_score → x.1 < y.1)) := by
  have hsort := List.sorted_mergeSort spotLE_trans spotLE_total (L.enum)
  have hperm : List.Perm ((L.enum).mergeSort spotLE) (L.enum) := List.mergeSort_perm _ _
  have h1 : ((L.enum).map Prod.fst).Nodup := by
    rw [List.enum_map_fst]
    exact List.nodup_range _
  have h2 : (((L.enum).mergeSort spotLE).map Prod.fst).Nodup :=
    ((hperm.map Prod.fst).nodup_iff).mpr h1
  have hne : ((L.enum).mergeSort spotLE).Pairwise (fun x y => x.1 ≠ y.1) :=
    List.pairwise_map.mp h2
  refine (hsort.and hne).imp ?_
  intro a b hab
  obtain ⟨hab1, hab2⟩ := hab
  simp only [spotLE, decide_eq_true_eq] at hab1
  omega

/-- Truncation preserves the pairwise order of the sorted decorated list. -/
theorem mergeSort_take_pairwise (L : List ScoredSpot) (limit : Nat) :
    ((((L.enum).mergeSort spotLE).take limit)).Pairwise
      (fun x y => y.2.bite_score ≤ x.2.bite_score ∧
        (x.2.bite_score = y.2.bite_score → x.1 < y.1)) :=
  (mergeSort_enum_pairwise L).sublist (List.take_sublist _ _)

/-- The head of the sorted, truncated list bounds the bite score of every
scored candidate. -/
theorem mergeSort_take_head_max (L : List ScoredSpot) (limit : Nat) (s : ScoredSpot)
    (hs : s ∈ L) (hd : Nat × ScoredSpot)
    (hhd : (((L.enum).mergeSort spotLE).take limit).head? = some hd) :
    s.bite_score ≤ hd.2.bite_score := by
  obtain ⟨i, hgi⟩ := List.mem_iff_getElem?.mp hs
  have hi : (i, s) ∈ L.enum := List.mk_mem_enum_iff_getElem?.mpr hgi
  have hmem : (i, s) ∈ (L.enum).mergeSort spotLE := List.mem_mergeSort.mpr hi
  have hstab := mergeSort_enum_pairwise L
  cases limit with
  | zero => simp at hhd
  | succ n =>
    cases hsl : (L.enum).mergeSort spotLE with
    | nil =>
      rw [hsl] at hmem
      cases hmem
    | cons a tl =>
      rw [hsl] at hhd hmem hstab
      rw [List.take_succ_cons] at hhd
      simp only [List.head?_cons, Option.some.injEq] at hhd
      rw [← hhd]
      rcases List.mem_cons.mp hmem with heq | hmemtl
      · exact le_of_eq (congrArg (fun z => z.2.bite_score) heq)
      · exact ((List.pairwise_cons.mp hstab).1 (i, s) hmemtl).1

/-! ## Claim theorems: ranking -/

/-- C5: the ranked list is the catalog-position-decorated candidate list
sorted in descending bite-score order with ties in strictly increasing
catalog order (a stable sort), truncated to the caller's limit; the spots
`rank` returns are exactly the sorted decorated spots, and the first element
of a non-empty result has maximal bite score among all scored candidates. -/
theorem rank_sorted_stable_truncated
    (species : String) (locations : List HabitatLocation)
    (weather : String → Option WeatherSnapshot) (hour : Nat)
    (bounds : Option GeoBounds) (limit : Nat) (out : List (Nat × ScoredSpot))
    (h : rankDecorated species locations weather hour bounds limit = .ok out) :
    rank species locations weather hour bounds limit = .ok (out.map Prod.snd) ∧
    (out.map Prod.snd).Pairwise (fun a b => b.bite_score ≤ a.bite_score) ∧
    out.Pairwise (fun x y => y.2.bite_score ≤ x.2.bite_score ∧
      (x.2.bite_score = y.2.bite_score → x.1 < y.1)) ∧
    out.length ≤ limit ∧
    (∀ profile, lookupProfile species = some profile →
      ∀ s ∈ scoredSpots profile locations weather hour bounds, ∀ hd,
        out.head? = some hd → s.bite_score ≤ hd.2.bite_score) := by
  unfold rankDecorated at h
  cases hp : lookupProfile species with
  | none =>
    rw [hp] at h
    exact Except.noConfusion h
  | some profile =>
    rw [hp] at h
    injection h with h
    subst h
    have hstab := mergeSort_take_pairwise
      (scoredSpots profile locations weather hour bounds) limit
    refine ⟨?_, ?_, hstab, ?_, ?_⟩
    · unfold rank rankDecorated
      rw [hp]
      rfl
    · exact List.pairwise_map.mpr (hstab.imp (fun hab => hab.1))
    · rw [List.length_take]
      exact Nat.min_le_left _ _
    · intro profile2 hp2 s hs hd hhd
      injection hp2 with hp2
      subst hp2
      exact mergeSort_take_head_max _ limit s hs hd hhd

/-- C5 witness: a concrete call (known species, empty catalog) on which the
ranking facts hold. -/
theorem rank_sorted_stable_truncated_witness :
    rankDecorated "walleye" [] (fun _ => none) 12 none 50 = .ok [] ∧
    rank "walleye" [] (fun _ => none) 12 none 50 =
      .ok (([] : List (Nat × ScoredSpot)).map Prod.snd) := by
  have hl : lookupProfile "walleye" =
      some ⟨["weed", "drop-off", "rocky", "shoal"], 13, 21, true, 17, 23⟩ := rfl
  have h : rankDecorated "walleye" [] (fun _ => none) 12 none 50 = .ok [] := by
    unfold rankDecorated
    rw [hl]
    simp [scoredSpots]
  exact ⟨h, (rank_sorted_stable_truncated "walleye" [] (fun _ => none) 12 none 50 [] h).1⟩

/-- C6: every spot `rank` returns carries the weather snapshot actually
present for its location id — a location whose id has no snapshot is
excluded, never scored with a default — and an empty catalog yields the
empty ranked list rather than an error; `rank` is a total function, so it
never crashes. -/
theorem rank_excludes_missing_weather
    (species : String) (locations : List HabitatLocation)
    (weather : String → Option WeatherSnapshot) (hour : Nat)
    (bounds : Option GeoBounds) (limit : Nat) (out : List ScoredSpot)
    (h : rank species locations weather hour bounds limit = .ok out) :
    (∀ s ∈ out, weather s.location.id = some s.weather) ∧
    (locations = [] → out = []) := by
  unfold rank rankDecorated at h
  cases hp : lookupProfile species with
  | none =>
    rw [hp] at h
    exact Except.noConfusion h
  | some profile =>
    rw [hp] at h
    simp only [Except.map] at h
    injection h with h
    subst h
    constructor
    · intro s hs
      obtain ⟨x, hx, rfl⟩ := List.mem_map.mp hs
      have hx2 : x ∈ ((scoredSpots profile locations weather hour bounds).enum).mergeSort spotLE :=
        List.take_subset _ _ hx
      have hx3 : x ∈ (scoredSpots profile locations weather hour bounds).enum :=
        List.mem_mergeSort.mp hx2
      have hx4 : x.2 ∈ scoredSpots profile locations weather hour bounds :=
        List.snd_mem_of_mem_enum hx3
      obtain ⟨loc, hloc, heq⟩ := List.mem_filterMap.mp hx4
      cases hw : weather loc.id with
      | none =>
        rw [hw] at heq
        cases heq
      | some w =>
        rw [hw] at heq
        simp only [Option.map_some'] at heq
        injection heq with heq
        rw [← heq]
        exact hw
    · intro hl
      subst hl
      simp [scoredSpots]

/-- C6 witness: a concrete call on an empty catalog with no weather data at
all returns the empty ranked list, and the exclusion property holds of it. -/
theorem rank_excludes_missing_weather_witness :
    rank "walleye" [] (fun _ => none) 12 none 50 = .ok [] ∧
    (∀ s ∈ ([] : List ScoredSpot), (fun _ => (none : Option WeatherSnapshot)) s.location.id = some s.weather) := by
  have hl : lookupProfile "walleye" =
      some ⟨["weed", "drop-off", "rocky", "shoal"], 13, 21, true, 17, 23⟩ := rfl
  have hrd : rankDecorated "walleye" [] (fun _ => none) 12 none 50 = .ok [] := by
    unfold rankDecorated
    rw [hl]
    simp [scoredSpots]
  have h : rank "walleye" [] (fun _ => none) 12 none 50 = .ok [] := by
    unfold rank
    rw [hrd]
    rfl
  exact ⟨h, (rank_excludes_missing_weather "walleye" [] (fun _ => none) 12 none 50 [] h).1⟩

end GoFish
